import Mathlib

/-!
Verification of the command handlers of a Telegram multi-utility bot
(`main.py`, `commands/fun.py`, `commands/utilities.py`, `commands/ai.py`).

Each handler performs at most one outbound HTTP call, extracts fields from
the JSON response, formats a text reply, and catches every exception of the
remote call with a bare `except` clause that replies a fixed fallback text.

The shallow embedding below models JSON values, the Python dictionary and
string operations the handlers use, and each handler as a total function
from its inputs (argument string, configured credential, outcome of the
remote call) to the reply it sends together with the number of outbound
HTTP calls it performed.
-/

/-- JSON values as Python sees them after `r.json()`. Numbers carry their
decimal rendering (the text Python produces when the value is interpolated
into an f-string), since the handlers only ever format numbers into text. -/
inductive Json where
  | null : Json
  | bool (b : Bool) : Json
  | str (s : String) : Json
  | num (lit : String) : Json
  | arr (items : List Json) : Json
  | obj (fields : List (String × Json)) : Json

mutual

/-- Python `repr()` rendering: strings are wrapped in quotes (escaping
inside string contents does not occur for the values handled here), lists
and dicts render their elements recursively with `repr`. -/
def Json.pyReprAux : Json → String
  | .null => "None"
  | .bool b => if b then "True" else "False"
  | .str s => "\x27" ++ s ++ "\x27"
  | .num lit => lit
  | .arr items => "[" ++ String.intercalate ", " (Json.pyReprList items) ++ "]"
  | .obj fields =>
      "\x7b" ++ String.intercalate ", " (Json.pyReprFields fields) ++ "\x7d"

/-- `repr` of each element of a JSON list. -/
def Json.pyReprList : List Json → List String
  | [] => []
  | j :: js => Json.pyReprAux j :: Json.pyReprList js

/-- `repr` of each `key: value` entry of a JSON dict. -/
def Json.pyReprFields : List (String × Json) → List String
  | [] => []
  | kv :: fs =>
      ("\x27" ++ kv.1 ++ "\x27: " ++ Json.pyReprAux kv.2) :: Json.pyReprFields fs

end

/-- Python `str()` / f-string rendering of a value at top level: the same
as `repr` except that a string prints bare, without quotes. -/
def Json.pyFormat : Json → String
  | .null => "None"
  | .bool b => if b then "True" else "False"
  | .str s => s
  | .num lit => lit
  | .arr items => "[" ++ String.intercalate ", " (Json.pyReprList items) ++ "]"
  | .obj fields =>
      "\x7b" ++ String.intercalate ", " (Json.pyReprFields fields) ++ "\x7d"

/-- Python `data.get(key, default)`: defined only on dicts; on any other
value it raises `AttributeError`, modelled by `throw`. -/
def Json.pyGetD (j : Json) (key : String) (d : Json) : Except Unit Json :=
  match j with
  | .obj fields => pure ((fields.lookup key).getD d)
  | _ => throw ()

/-- Python `data.get(key)`: returns `None` when the key is absent. -/
def Json.pyGet (j : Json) (key : String) : Except Unit Json :=
  j.pyGetD key Json.null

/-- Python `data[key]` on a dict: raises `KeyError` when the key is absent,
and `TypeError` when `data` is not a dict. -/
def Json.pyIndexStr (j : Json) (key : String) : Except Unit Json :=
  match j with
  | .obj fields =>
      match fields.lookup key with
      | some v => pure v
      | none => throw ()
  | _ => throw ()

/-- Python `data[i]` on a list with a non-negative index: raises
`IndexError` out of range, `TypeError`/`KeyError` when `data` is not a list. -/
def Json.pyIndexNat (j : Json) (i : Nat) : Except Unit Json :=
  match j with
  | .arr items =>
      match items.get? i with
      | some v => pure v
      | none => throw ()
  | _ => throw ()

/-- The characters Python `str.strip()` removes (the ASCII ones; the
handlers only meet ASCII whitespace). -/
def isPySpace (c : Char) : Bool :=
  c = ' ' || c = '\t' || c = '\n' || c = '\r' || c = '\x0b' || c = '\x0c'

/-- Python `str.strip()`. -/
def pyStrip (s : String) : String :=
  String.mk (((s.data.dropWhile isPySpace).reverse.dropWhile isPySpace).reverse)

/-- Python `str.lower()` (ASCII). -/
def pyLower (s : String) : String :=
  String.mk (s.data.map Char.toLower)

/-- Python `str.capitalize()`: first character upper-cased, the rest
lower-cased. -/
def pyCapitalize (s : String) : String :=
  match s.data with
  | [] => ""
  | c :: cs => String.mk (c.toUpper :: cs.map Char.toLower)

/-- Python `s[:n]` on a string: the first `n` characters (code points). -/
def pySlice (n : Nat) (s : String) : String :=
  String.mk (s.data.take n)

/-- Python truthiness of an optional string (`if args`, `if not prompt`):
`None` and the empty string are falsy, every other string is truthy. -/
def pyTruthy : Option String → Bool
  | none => false
  | some s => !s.isEmpty

/-- Outcome of the single outbound HTTP call of a handler, as the handler
observes it: either the `requests` call raised (network error or timeout),
or a response arrived with a status code and a body; `body? = none` means
the body is not valid JSON, so `r.json()` raises. -/
inductive FetchResult where
  | exn : FetchResult
  | response (status : Nat) (body? : Option Json) : FetchResult

/-- `r.json()`: raises on a failed call and on a non-JSON body. -/
def fetchJson : FetchResult → Except Unit Json
  | .exn => throw ()
  | .response _ none => throw ()
  | .response _ (some body) => pure body

/-- A reply sent back through the chat platform: plain text
(`message.reply`) or a photo with caption (`message.reply_photo`). -/
inductive Reply where
  | text (s : String) : Reply
  | photo (url : String) (caption : String) : Reply
deriving DecidableEq

/-- Handler for `/joke` (`commands/fun.py`): GET the joke API, reply
`data.get('joke', 'Couldn\x27t fetch joke')`; any exception replies
"Joke API error". Returns the reply and the number of outbound calls. -/
def cmd_joke (fetch : FetchResult) : Reply × Nat :=
  let body : Except Unit Reply := do
    let data ← fetchJson fetch
    let v ← data.pyGetD "joke" (Json.str "Couldn\x27t fetch joke")
    pure (Reply.text v.pyFormat)
  match body with
  | .ok r => (r, 1)
  | .error _ => (Reply.text "Joke API error", 1)

/-- Handler for `/quote` (`commands/fun.py`): GET the quote API, take
`r.json()[0]`, reply `f"\"\x7bdata.get('q')\x7d\" — \x7bdata.get('a')\x7d"`;
any exception replies "Quote API error". -/
def cmd_quote (fetch : FetchResult) : Reply × Nat :=
  let body : Except Unit Reply := do
    let data0 ← fetchJson fetch
    let data ← data0.pyIndexNat 0
    let q ← data.pyGet "q"
    let a ← data.pyGet "a"
    pure (Reply.text ("\"" ++ q.pyFormat ++ "\" — " ++ a.pyFormat))
  match body with
  | .ok r => (r, 1)
  | .error _ => (Reply.text "Quote API error", 1)

/-- Handler for `/meme` (`commands/fun.py`): GET the meme API, reply a
photo `data['url']` with caption `data.get('title','')`; any exception
(in particular the `KeyError` of a missing `'url'`) replies
"No meme for now". -/
def cmd_meme (fetch : FetchResult) : Reply × Nat :=
  let body : Except Unit Reply := do
    let data ← fetchJson fetch
    let url ← data.pyIndexStr "url"
    let title ← data.pyGetD "title" (Json.str "")
    pure (Reply.photo url.pyFormat title.pyFormat)
  match body with
  | .ok r => (r, 1)
  | .error _ => (Reply.text "No meme for now", 1)

/-- Handler for `/weather` (`commands/utilities.py`):
`city = args.strip() if args else None`; empty city replies the usage
string with no outbound call; a non-200 status replies
"Weather not found or API key missing"; otherwise the reply is formatted
from `data['weather'][0]['description']` and `data['main']['temp']`;
any exception replies "Weather API error". -/
def cmd_weather (args : Option String) (fetch : FetchResult) : Reply × Nat :=
  let city : Option String := if pyTruthy args then some (pyStrip (args.getD "")) else none
  if !(pyTruthy city) then
    (Reply.text "Usage: /weather city_name", 0)
  else
    let c := city.getD ""
    match fetch with
    | .exn => (Reply.text "Weather API error", 1)
    | .response status body? =>
      if status ≠ 200 then
        (Reply.text "Weather not found or API key missing", 1)
      else
        let body : Except Unit Reply := do
          let data ← fetchJson (.response status body?)
          let w ← data.pyIndexStr "weather"
          let w0 ← w.pyIndexNat 0
          let desc ← w0.pyIndexStr "description"
          let main ← data.pyIndexStr "main"
          let temp ← main.pyIndexStr "temp"
          pure (Reply.text ("Weather in " ++ c ++ ": " ++ desc.pyFormat ++ ", "
            ++ temp.pyFormat ++ "°C"))
        match body with
        | .ok r => (r, 1)
        | .error _ => (Reply.text "Weather API error", 1)

/-- Result of the `/crypto` handler: the reply, the number of outbound
calls, and the coin id placed in the `ids=` parameter of the outbound
query URL (`none` when no call is made). -/
structure CryptoResult where
  reply : Reply
  calls : Nat
  queriedCoin : Option String
deriving DecidableEq

/-- Handler for `/crypto` (`commands/utilities.py`):
`coin = args.strip().lower() if args else 'bitcoin'`; GET the price API
with `ids=\x7bcoin\x7d`; `price = data.get(coin, \x7b\x7d).get('usd')`;
`price is None` replies "Coin not found", otherwise
`f"\x7bcoin.capitalize()\x7d price: $\x7bprice\x7d"`; any exception
replies "CoinGecko API error". -/
def cmd_crypto (args : Option String) (fetch : FetchResult) : CryptoResult :=
  let coin := if pyTruthy args then pyLower (pyStrip (args.getD "")) else "bitcoin"
  let body : Except Unit Reply := do
    let data ← fetchJson fetch
    let entry ← data.pyGetD coin (Json.obj [])
    let price ← entry.pyGet "usd"
    match price with
    | Json.null => pure (Reply.text "Coin not found")
    | price => pure (Reply.text (pyCapitalize coin ++ " price: $" ++ price.pyFormat))
  let reply :=
    match body with
    | .ok r => r
    | .error _ => Reply.text "CoinGecko API error"
  ⟨reply, 1, some coin⟩

/-- Handler for `/ask` (`commands/ai.py`): an empty or missing prompt
replies the usage string; a missing HuggingFace key replies the canned
notice echoing the prompt, with no outbound call; otherwise POST the
prompt and reply `text[:3000]` where `text` is
`data[0].get('generated_text', str(data))` for a non-empty list body and
`data.get('generated_text', str(data))` otherwise; any exception replies
"AI API error or timeout". A non-string `text` raises on slicing. -/
def cmd_ask (key : Option String) (args : Option String) (fetch : FetchResult) :
    Reply × Nat :=
  if !(pyTruthy args) then
    (Reply.text "Usage: /ask your question", 0)
  else
    let prompt := args.getD ""
    if !(pyTruthy key) then
      (Reply.text ("Sorry, no external AI key configured. You asked: " ++ prompt), 0)
    else
      let body : Except Unit Reply := do
        let data ← fetchJson fetch
        let text ←
          match data with
          | .arr (x :: _) => x.pyGetD "generated_text" (Json.str data.pyFormat)
          | _ => data.pyGetD "generated_text" (Json.str data.pyFormat)
        let s ← match text with
          | .str s => pure s
          | _ => throw ()
        pure (Reply.text (pySlice 3000 s))
      match body with
      | .ok r => (r, 1)
      | .error _ => (Reply.text "AI API error or timeout", 1)

/-- Commands registered with the dispatcher at startup, in registration
order: `start` and `help` in `main.py`, then `fun.register` (joke, quote,
meme), `utilities.register` (weather, crypto, time), `ai.register` (ask). -/
def registeredCommands : List String :=
  ["start", "help", "joke", "quote", "meme", "weather", "crypto", "time", "ask"]

/-- The exact help text of `cmd_help` in `main.py`. -/
def helpText : String :=
  "/start - Start bot\n" ++
  "/help - This help\n" ++
  "/ask <text> - Ask AI (local HF or fallback)\n" ++
  "/quote - Random inspirational quote\n" ++
  "/joke - Random joke\n" ++
  "/weather <city> - Weather info (OpenWeather)\n" ++
  "/crypto <id> - Crypto price (CoinGecko)\n" ++
  "/todo, /notes - Personal todo & notes (local json)\n"

/-- Scanner extracting the command names mentioned in a text: each `/` not
inside a name starts a command name, which extends over the following
letters. `acc?` holds the (reversed) characters of the name being read. -/
def extractCommandsAux : List Char → Option (List Char) → List String
  | [], none => []
  | [], some acc => [String.mk acc.reverse]
  | c :: rest, none =>
      if c = '/' then extractCommandsAux rest (some [])
      else extractCommandsAux rest none
  | c :: rest, some acc =>
      if c.isAlpha then extractCommandsAux rest (some (c :: acc))
      else
        String.mk acc.reverse ::
          (if c = '/' then extractCommandsAux rest (some [])
           else extractCommandsAux rest none)

/-- The command names listed by the `/help` reply, in order. -/
def helpCommands : List String :=
  extractCommandsAux helpText.data none

/-- Startup sequence of `main.py`: if `TELEGRAM_TOKEN` is unset (or empty)
the process raises `SystemExit` with an explanatory message before the bot,
the dispatcher, or any handler registration is created; otherwise the
dispatcher comes up with all bundles registered. -/
def startup (telegramToken : Option String) : Except String (List String) :=
  if !(pyTruthy telegramToken) then
    Except.error "Please set TELEGRAM_TOKEN in .env file"
  else
    Except.ok registeredCommands

/-- Whether a handler for `cmd` can run for a process started with the
given token: dispatch exists only after a successful startup. -/
def handlerCanRun (telegramToken : Option String) (cmd : String) : Bool :=
  match startup telegramToken with
  | .error _ => false
  | .ok cmds => cmds.contains cmd

/-! ## Helper lemmas -/

/-- Truthiness of a present argument string. -/
theorem pyTruthy_some (s : String) : pyTruthy (some s) = !s.isEmpty := rfl

/-- Truthiness of a missing argument. -/
theorem pyTruthy_none : pyTruthy none = false := rfl

/-- A non-empty all-whitespace string strips to the empty string. -/
theorem pyStrip_all_space (s : String) (h : ∀ c ∈ s.data, isPySpace c) :
    pyStrip s = "" := by
  unfold pyStrip
  have hd : s.data.dropWhile isPySpace = [] := List.dropWhile_eq_nil_iff.mpr h
  rw [hd]
  rfl

set_option maxRecDepth 40000 in
/-- Evaluation of the help-text scanner. -/
theorem helpCommands_eval :
    helpCommands =
      ["start", "help", "ask", "quote", "joke", "weather", "crypto", "todo", "notes"] := by
  rfl

/-! ## C1 -/

/-- C1, counterexample: the claim says a handler whose response body lacks a
required field replies its failure message and never text formatted from
`None` values; but `/quote` on the body `[ \x7b \x7d ]` (missing `q` and `a`)
replies the string `"None" — None`, formatted from the two `None` values,
which is not its failure message "Quote API error". -/
theorem c1_counterexample :
    cmd_quote (.response 200 (some (Json.arr [Json.obj []])))
      = (Reply.text "\"None\" — None", 1) ∧
    Reply.text "\"None\" — None" ≠ Reply.text "Quote API error" := by
  exact ⟨rfl, by decide⟩

/-- C1, amended: on a success response lacking the required field, `/joke`
replies its inline default text "Couldn\x27t fetch joke" and `/meme` replies
its failure message "No meme for now" (the `KeyError` of `data['url']` is
caught); but `/quote` replies text formatted from the `None` field values,
and `/ask` replies the Python string rendering of the whole body (here
`\x7b\x7d`) truncated to 3000 characters, not its failure message. -/
theorem c1_amended (s : Nat) :
    cmd_joke (.response s (some (Json.obj []))) = (Reply.text "Couldn\x27t fetch joke", 1) ∧
    cmd_meme (.response s (some (Json.obj [("title", Json.str "cat")])))
      = (Reply.text "No meme for now", 1) ∧
    cmd_quote (.response s (some (Json.arr [Json.obj []])))
      = (Reply.text "\"None\" — None", 1) ∧
    cmd_ask (some "k") (some "p") (.response s (some (Json.obj [])))
      = (Reply.text "\x7b\x7d", 1) := by
  exact ⟨rfl, rfl, rfl, rfl⟩

/-! ## C2 -/

set_option maxRecDepth 40000 in
/-- C2, counterexample: the claim says the `/help` reply lists every
registered command exactly once and no unregistered one; but the registered
command `meme` does not occur in the help text, and `todo` occurs there
without being registered. -/
theorem c2_counterexample :
    ¬ ((∀ c ∈ registeredCommands, helpCommands.count c = 1) ∧
       (∀ c ∈ helpCommands, c ∈ registeredCommands)) := by
  decide

set_option maxRecDepth 40000 in
/-- C2, amended: `/help` lists nine command names, each exactly once; seven
of them are registered, but `todo` and `notes` are listed without being
registered, and the registered commands `meme` and `time` are not listed. -/
theorem c2_amended :
    helpCommands =
      ["start", "help", "ask", "quote", "joke", "weather", "crypto", "todo", "notes"] ∧
    (∀ c ∈ helpCommands, helpCommands.count c = 1) ∧
    (∀ c ∈ helpCommands, c ≠ "todo" → c ≠ "notes" → c ∈ registeredCommands) ∧
    "todo" ∈ helpCommands ∧ "todo" ∉ registeredCommands ∧
    "notes" ∈ helpCommands ∧ "notes" ∉ registeredCommands ∧
    "meme" ∈ registeredCommands ∧ "meme" ∉ helpCommands ∧
    "time" ∈ registeredCommands ∧ "time" ∉ helpCommands := by
  decide

/-! ## C3 -/

/-- C3, counterexample: the claim says every remote-call failure (among them
a non-success status and a missing field) makes the handler reply exactly
the documented fallback text; but `/joke` on a status-500 response whose
body parses to a dict without the `joke` field replies the inline default
"Couldn\x27t fetch joke", which differs from the documented fallback
"Joke API error". -/
theorem c3_counterexample :
    cmd_joke (.response 500 (some (Json.obj [])))
      = (Reply.text "Couldn\x27t fetch joke", 1) ∧
    ("Couldn\x27t fetch joke" : String) ≠ "Joke API error" := by
  exact ⟨rfl, by decide⟩

/-- C3, amended: no exception escapes a handler (each handler is total and
every failure lands in its catch-all branch), and a raised remote call
(network error or timeout) or a malformed body does yield the documented
command-specific fallback for every handler, as does a non-200 status for
`/weather`; but a missing required field (and, outside `/weather`, a
non-success status) is not converted to the documented fallback text. -/
theorem c3_amended (s : Nat) (b : Option Json) (hs : s ≠ 200) :
    cmd_joke .exn = (Reply.text "Joke API error", 1) ∧
    cmd_joke (.response s none) = (Reply.text "Joke API error", 1) ∧
    cmd_quote .exn = (Reply.text "Quote API error", 1) ∧
    cmd_quote (.response s none) = (Reply.text "Quote API error", 1) ∧
    cmd_meme .exn = (Reply.text "No meme for now", 1) ∧
    cmd_meme (.response s none) = (Reply.text "No meme for now", 1) ∧
    (cmd_crypto none .exn).reply = Reply.text "CoinGecko API error" ∧
    (cmd_crypto none (.response s none)).reply = Reply.text "CoinGecko API error" ∧
    cmd_ask (some "k") (some "p") .exn = (Reply.text "AI API error or timeout", 1) ∧
    cmd_ask (some "k") (some "p") (.response s none)
      = (Reply.text "AI API error or timeout", 1) ∧
    cmd_weather (some "Paris") .exn = (Reply.text "Weather API error", 1) ∧
    cmd_weather (some "Paris") (.response 200 none)
      = (Reply.text "Weather API error", 1) ∧
    cmd_weather (some "Paris") (.response s b)
      = (Reply.text "Weather not found or API key missing", 1) := by
  refine ⟨rfl, rfl, rfl, rfl, rfl, rfl, rfl, rfl, rfl, rfl, rfl, rfl, ?_⟩
  unfold cmd_weather
  simp [pyTruthy_some, hs]
  decide

/-- C3, witness. -/
theorem c3_witness :
    cmd_joke .exn = (Reply.text "Joke API error", 1) ∧
    cmd_joke (.response 500 none) = (Reply.text "Joke API error", 1) ∧
    cmd_quote .exn = (Reply.text "Quote API error", 1) ∧
    cmd_quote (.response 500 none) = (Reply.text "Quote API error", 1) ∧
    cmd_meme .exn = (Reply.text "No meme for now", 1) ∧
    cmd_meme (.response 500 none) = (Reply.text "No meme for now", 1) ∧
    (cmd_crypto none .exn).reply = Reply.text "CoinGecko API error" ∧
    (cmd_crypto none (.response 500 none)).reply = Reply.text "CoinGecko API error" ∧
    cmd_ask (some "k") (some "p") .exn = (Reply.text "AI API error or timeout", 1) ∧
    cmd_ask (some "k") (some "p") (.response 500 none)
      = (Reply.text "AI API error or timeout", 1) ∧
    cmd_weather (some "Paris") .exn = (Reply.text "Weather API error", 1) ∧
    cmd_weather (some "Paris") (.response 200 none)
      = (Reply.text "Weather API error", 1) ∧
    cmd_weather (some "Paris") (.response 500 none)
      = (Reply.text "Weather not found or API key missing", 1) :=
  c3_amended 500 none (by decide)

/-! ## C4 -/

/-- C4: invoking `/weather` or `/ask` with a missing or empty argument
replies exactly the fixed usage string of the command and performs zero
outbound HTTP calls, whatever the remote service would have answered. -/
theorem c4_usage_no_call (args key : Option String) (f g : FetchResult)
    (h : args = none ∨ args = some "") :
    cmd_weather args f = (Reply.text "Usage: /weather city_name", 0) ∧
    cmd_ask key args g = (Reply.text "Usage: /ask your question", 0) := by
  rcases h with h | h <;> subst h
  · exact ⟨rfl, rfl⟩
  · exact ⟨rfl, rfl⟩

/-- C4, witness. -/
theorem c4_witness :
    cmd_weather none FetchResult.exn = (Reply.text "Usage: /weather city_name", 0) ∧
    cmd_ask none none FetchResult.exn = (Reply.text "Usage: /ask your question", 0) :=
  c4_usage_no_call none none FetchResult.exn FetchResult.exn (Or.inl rfl)

/-! ## C5 -/

/-- C5: for every non-empty prompt, `/ask` with no HuggingFace credential
configured (unset or empty) replies exactly the canned notice followed by
the prompt verbatim, and performs zero outbound HTTP calls. -/
theorem c5_no_key_echo (key : Option String) (prompt : String) (f : FetchResult)
    (hp : prompt.isEmpty = false) (hk : key = none ∨ key = some "") :
    cmd_ask key (some prompt) f
      = (Reply.text ("Sorry, no external AI key configured. You asked: " ++ prompt), 0) := by
  have hkt : pyTruthy key = false := by
    rcases hk with hk | hk <;> subst hk <;> rfl
  unfold cmd_ask
  simp [pyTruthy_some, hp, hkt]

/-- C5, witness. -/
theorem c5_witness :
    cmd_ask none (some "hello") FetchResult.exn
      = (Reply.text ("Sorry, no external AI key configured. You asked: " ++ "hello"), 0) :=
  c5_no_key_echo none "hello" FetchResult.exn rfl (Or.inl rfl)

/-! ## C6 -/

/-- C6: on the success path of `/ask` (non-empty prompt, configured key,
body a non-empty JSON list whose head carries a string `generated_text`),
the reply is exactly the first 3000 characters of the generated text; its
length is `min 3000` of the original length, so a 4000-character generated
response yields a reply of exactly 3000 characters. -/
theorem c6_ask_truncates (key prompt t : String) (s : Nat)
    (hk : key.isEmpty = false) (hp : prompt.isEmpty = false) :
    cmd_ask (some key) (some prompt)
        (.response s (some (Json.arr [Json.obj [("generated_text", Json.str t)]])))
      = (Reply.text (pySlice 3000 t), 1) ∧
    (pySlice 3000 t).length = min 3000 t.length ∧
    (t.length = 4000 → (pySlice 3000 t).length = 3000) := by
  have hlen : (pySlice 3000 t).length = min 3000 t.length := by
    show (t.data.take 3000).length = min 3000 t.data.length
    exact List.length_take 3000 t.data
  refine ⟨?_, hlen, ?_⟩
  · unfold cmd_ask
    simp [pyTruthy_some, hp, hk, fetchJson, Json.pyGetD, Except.bind]
    rfl
  · intro h4
    rw [hlen, h4]
    omega

/-- C6, witness. -/
theorem c6_witness :
    cmd_ask (some "k") (some "p")
        (.response 200 (some (Json.arr [Json.obj [("generated_text",
          Json.str (String.mk (List.replicate 4000 'a')))]])))
      = (Reply.text (pySlice 3000 (String.mk (List.replicate 4000 'a'))), 1) ∧
    (pySlice 3000 (String.mk (List.replicate 4000 'a'))).length = 3000 := by
  have h := c6_ask_truncates "k" "p" (String.mk (List.replicate 4000 'a')) 200 rfl rfl
  refine ⟨h.1, h.2.2 ?_⟩
  show (List.replicate 4000 'a').length = 4000
  rw [List.length_replicate]

/-! ## C7 -/

/-- C7: `/crypto` with no argument places the coin id `bitcoin` in the
`ids=` parameter of the outbound price query whatever the call returns,
and a successful response pricing `bitcoin` yields the reply
`Bitcoin price: $<price>` for that coin id. -/
theorem c7_crypto_default (f : FetchResult) (s : Nat) (lit : String) :
    (cmd_crypto none f).queriedCoin = some "bitcoin" ∧
    (cmd_crypto none (.response s (some (Json.obj
        [("bitcoin", Json.obj [("usd", Json.num lit)])])))).reply
      = Reply.text ("Bitcoin price: $" ++ lit) := by
  exact ⟨rfl, rfl⟩

/-! ## C8 -/

/-- C8: `/weather Paris` on a status-200 response with body
`\x7bweather: [\x7bdescription: "clear sky"\x7d], main: \x7btemp: 18.4\x7d\x7d`
replies exactly `Weather in Paris: clear sky, 18.4°C`. -/
theorem c8_weather_paris :
    cmd_weather (some "Paris")
        (.response 200 (some (Json.obj
          [("weather", Json.arr [Json.obj [("description", Json.str "clear sky")]]),
           ("main", Json.obj [("temp", Json.num "18.4")])])))
      = (Reply.text "Weather in Paris: clear sky, 18.4°C", 1) := by
  rfl

/-! ## C9 -/

/-- C9: when `TELEGRAM_TOKEN` is unset or empty, startup terminates with
the explanatory `SystemExit` message before the dispatcher exists, and no
handler can ever run for such a process. -/
theorem c9_startup_requires_token (token : Option String)
    (h : pyTruthy token = false) :
    startup token = Except.error "Please set TELEGRAM_TOKEN in .env file" ∧
    ∀ cmd, handlerCanRun token cmd = false := by
  have hs : startup token = Except.error "Please set TELEGRAM_TOKEN in .env file" := by
    unfold startup
    rw [h]
    rfl
  refine ⟨hs, fun cmd => ?_⟩
  unfold handlerCanRun
  rw [hs]

/-- C9, witness. -/
theorem c9_witness :
    startup none = Except.error "Please set TELEGRAM_TOKEN in .env file" ∧
    handlerCanRun none "joke" = false :=
  ⟨(c9_startup_requires_token none rfl).1,
   (c9_startup_requires_token none rfl).2 "joke"⟩

/-! ## C10 -/

/-- C10: `/crypto` with a non-empty, all-whitespace argument does not
default to `bitcoin`: the argument strips and lowercases to the empty coin
id, which is placed in the outbound query, and a response carrying no entry
for the empty id makes the handler reply "Coin not found". -/
theorem c10_crypto_whitespace (arg : String) (s : Nat) (f : FetchResult)
    (fields : List (String × Json))
    (h1 : arg.isEmpty = false) (h2 : ∀ c ∈ arg.data, isPySpace c)
    (h3 : fields.lookup "" = none) :
    (cmd_crypto (some arg) f).queriedCoin = some "" ∧
    (cmd_crypto (some arg) (.response s (some (Json.obj fields)))).reply
      = Reply.text "Coin not found" := by
  have hl : pyLower (pyStrip arg) = "" := by
    rw [pyStrip_all_space arg h2]
    rfl
  constructor
  · unfold cmd_crypto
    simp [pyTruthy_some, h1, hl]
  · unfold cmd_crypto
    simp [pyTruthy_some, h1, hl, fetchJson, Json.pyGetD, Json.pyGet, h3, Except.bind]
    rfl

/-- C10, witness. -/
theorem c10_witness :
    (cmd_crypto (some "   ") FetchResult.exn).queriedCoin = some "" ∧
    (cmd_crypto (some "   ") (.response 200 (some (Json.obj [])))).reply
      = Reply.text "Coin not found" :=
  c10_crypto_whitespace "   " 200 FetchResult.exn [] rfl (by decide) rfl
